import Mathlib

/-!
Shallow embedding of the SkyRoads-style browser game (repository
`sgraphics/SkyRoads`).  The repository holds several successive revisions of
one monolithic `Game` class; the primary revision modelled here is the first
revision in `src/game.js` (the key-state-tracking revision with
`leftKeyPressed`/`rightKeyPressed`).  The later revision found in
`src/unnamed/part_000` (tunnel floors, Space-restarts-at-game-over) is
modelled separately in the `Part000` namespace.

All JavaScript numbers appearing in the game logic are exact decimal
constants (0.2, 0.25, 0.4, 1.75, 2.25, 3.5, 4.5, ...), so the arithmetic is
embedded over `ℚ`, where every operation the code performs is exact.
-/

namespace SkyRoads

/-! ### Constants of the `game.js` revision (constructor, lines 27-54) -/

/-- `this.gameSpeed = 0.4` -/
def gameSpeed : ℚ := 0.4

/-- `this.forwardSpeed = 0.2` -/
def forwardSpeed : ℚ := 0.2

/-- `this.trackWidth = 7` -/
def trackWidth : ℚ := 7

/-- `this.segmentHeight = 0.2` (normal track height) -/
def segmentHeight : ℚ := 0.2

/-! ### Track segments

A track entry of the `game.js` revision is either a box mesh (position
`(x*3.5, h, z)`, scale `(3.5, h, 4.5)`) or, for the tunnel characters
`'5'`/`'6'`, a `THREE.Group` (position `(x*3.5, 0.1, z)`, default scale
`(1,1,1)`).  Collision code only reads `position` and `scale`; the
`geometry instanceof THREE.CylinderGeometry` test in `checkCollisions` is
false for every entry this revision pushes (boxes carry `BoxGeometry`, the
tunnel groups carry no geometry at all), so only the normal-block branch of
that test is reachable and it alone is embedded. -/

structure Segment where
  px : ℚ
  py : ℚ
  pz : ℚ
  sx : ℚ
  sy : ℚ
  sz : ℚ
  blockType : Char
  deriving DecidableEq, Repr

/-- Top surface of a segment: `segment.position.y + segment.scale.y`. -/
def segTop (s : Segment) : ℚ := s.py + s.sy

/-! ### Level parsing (`generateTrackFromLevel`, game.js lines 290-382)

The level text is modelled as its list of lines (the JavaScript
`trim().split('\n')` step is the passage from the raw string to that list).
Lines containing `'<'` (the `<start>`/`<end>` markers) are filtered out and
the remaining rows reversed; each row is padded with spaces to 7 characters
and truncated to 7; a segment is emitted for every digit character. -/

/-- The regular-expression test `/[0-9]/.test(block)`. -/
def isDigitChar (c : Char) : Bool := '0' ≤ c && c ≤ '9'

/-- Guard of the cell loop: a segment is emitted unless the character is a
space, a dot, or not a digit
(`if (block === ' ' || block === '.' || !/[0-9]/.test(block)) return;`). -/
def isTrackChar (c : Char) : Bool := !(c == ' ') && !(c == '.') && isDigitChar c

/-- `getBlockHeight(block)` (game.js lines 400-411). -/
def getBlockHeight (c : Char) : ℚ :=
  if c == '5' || c == '6' then 0.1
  else if c == '7' || c == '8' then 1.0
  else 0.2

/-- `row.padEnd(7, ' ').slice(0, 7)` on a row of characters. -/
def padTake7 (row : List Char) : List Char :=
  (row ++ List.replicate (7 - row.length) ' ').take 7

/-- The segment pushed for the digit `c` in column `col` of (reversed) row
`idx`: `x = columnIndex - 3`, `z = -index * 4.5`; tunnels (`'5'`/`'6'`) are
pushed as a group at `(x*3.5, getBlockHeight, z)` with the default scale
`(1,1,1)`, other digits as a box at `(x*3.5, h, z)` scaled `(3.5, h, 4.5)`. -/
def mkSegment (idx col : ℕ) (c : Char) : Segment :=
  let x : ℚ := (col : ℚ) - 3
  let z : ℚ := -(idx : ℚ) * 4.5
  if c == '5' || c == '6' then
    { px := x * 3.5, py := getBlockHeight c, pz := z
      sx := 1, sy := 1, sz := 1, blockType := c }
  else
    { px := x * 3.5, py := getBlockHeight c, pz := z
      sx := 3.5, sy := getBlockHeight c, sz := 4.5, blockType := c }

/-- Segments emitted by one row of the level. -/
def rowSegments (idx : ℕ) (row : List Char) : List Segment :=
  (padTake7 row).enum.filterMap fun p =>
    if isTrackChar p.2 then some (mkSegment idx p.1 p.2) else none

/-- `generateTrackFromLevel()` on a level given as its list of lines:
filter out marker lines (those containing `'<'`), reverse, and emit the
segments of each row in order. -/
def generateTrackFromLevel (lvl : List (List Char)) : List Segment :=
  ((lvl.filter fun r => !(r.contains '<')).reverse).enum.flatMap fun p =>
    rowSegments p.1 p.2

/-! ### Game state (the mutable fields of the `Game` object that the
movement / collision / restart logic reads and writes) -/

structure Game where
  shipX : ℚ
  shipY : ℚ
  shipZ : ℚ
  shipRotation : ℚ
  shipVelX : ℚ
  isJumping : Bool
  jumpVelocity : ℚ
  gameOver : Bool
  leftKeyPressed : Bool
  rightKeyPressed : Bool
  track : List Segment
  levelData : List (List Char)
  deriving Repr

/-! ### Per-frame update (`updateShip`, game.js lines 571-654) -/

/-- Ship x after the lateral move of the frame
(`this.shipVelocity.x = this.shipRotation * this.gameSpeed;
this.shipPosition.x += this.shipVelocity.x`); this is also the x coordinate
of the frame's ship center. -/
def centerX (g : Game) : ℚ := g.shipX + g.shipRotation * gameSpeed

/-- The z coordinate of the frame's forward-offset ship center: z after the
forward move (`this.shipPosition.z -= this.forwardSpeed`) plus the offset 1
(`shipCenter.z += 1`). -/
def centerZ (g : Game) : ℚ := g.shipZ - forwardSpeed + 1

/-- Footprint test used by every collision loop:
`Math.abs(shipCenter.x - segment.position.x) < 1.75 &&
 Math.abs(shipCenter.z - segment.position.z) < 2.25`. -/
def overlap (cx cz : ℚ) (s : Segment) : Bool :=
  decide (|cx - s.px| < 1.75) && decide (|cz - s.pz| < 2.25)

/-- Landing test of the jumping branch (game.js lines 598-604): footprint
overlap and `y <= segmentTop + 0.2 && y > segmentTop - 0.5`, where `y` is
the ship y after this frame's integration. -/
def landingHit (cx cz y : ℚ) (s : Segment) : Bool :=
  overlap cx cz s && decide (y ≤ segTop s + 0.2) && decide (y > segTop s - 0.5)

/-- Support test of the grounded branch (game.js lines 621-632): footprint
overlap and `Math.abs(y - segmentTop) < 0.3`. -/
def groundHit (cx cz y : ℚ) (s : Segment) : Bool :=
  overlap cx cz s && decide (|y - segTop s| < 0.3)

/-- `checkCollisions(shipCenter)` (game.js lines 457-512).  The two
out-of-bounds checks read `this.shipPosition`; the on-track scan reads the
passed ship center.  The `geometry instanceof THREE.CylinderGeometry`
branch is unreachable for the segments this revision creates (see
`Segment`), so the scan is the normal-block footprint test. -/
def checkCollisions (cx cz : ℚ) (g : Game) : Game :=
  if |g.shipX| > trackWidth * 1.5 then { g with gameOver := true }
  else if g.shipY < -5 then { g with gameOver := true }
  else if g.isJumping then g
  else if g.track.any fun s => overlap cx cz s then g
  else { g with isJumping := true, jumpVelocity := -0.1 }

/-- The vertical-physics part of `updateShip` (everything between the
forward move and the final `checkCollisions` call), acting on the state
after the lateral and forward moves, with the frame's ship center passed
in.  Jumping branch: integrate `y += jumpVelocity`, apply gravity
`jumpVelocity -= 0.01`, land on the first segment passing `landingHit`
(snap `y` to its top, clear the jump state), and if no segment was hit and
the velocity is negative subtract a further `0.01`.  Grounded branch: snap
`y` to the top of the first segment passing `groundHit`, or start falling
(`isJumping = true`, `jumpVelocity = -0.1`) when there is none. -/
def verticalStep (cx cz : ℚ) (g : Game) : Game :=
  if g.isJumping then
    match g.track.find? (landingHit cx cz (g.shipY + g.jumpVelocity)) with
    | some s => { g with shipY := segTop s, isJumping := false, jumpVelocity := 0 }
    | none =>
        { g with shipY := g.shipY + g.jumpVelocity,
                 jumpVelocity :=
                   if g.jumpVelocity - 0.01 < 0 then g.jumpVelocity - 0.01 - 0.01
                   else g.jumpVelocity - 0.01 }
  else
    match g.track.find? (groundHit cx cz g.shipY) with
    | some s => { g with shipY := segTop s }
    | none => { g with isJumping := true, jumpVelocity := -0.1 }

/-- Body of `updateShip` past the game-over guard: lateral move, forward
move, vertical physics, then `checkCollisions` with the frame's center. -/
def updateShipCore (g : Game) : Game :=
  checkCollisions (centerX g) (centerZ g)
    (verticalStep (centerX g) (centerZ g)
      { g with shipVelX := g.shipRotation * gameSpeed,
               shipX := centerX g,
               shipZ := g.shipZ - forwardSpeed })

/-- `restartGame()` (game.js lines 656-679): clear the game-over flag,
rotation, velocity and jump state, clear the track list and regenerate it
from the (unchanged) level data, and reset the ship to
`(0, segmentHeight, 0)`. -/
def restartGame (g : Game) : Game :=
  { g with gameOver := false, shipRotation := 0, shipVelX := 0,
           isJumping := false, jumpVelocity := 0,
           track := generateTrackFromLevel g.levelData,
           shipX := 0, shipY := segmentHeight, shipZ := 0 }

/-- `updateShip()` (game.js lines 571-654).  When the game is over the
method only offers a restart through a `confirm` dialog — the player's
choice is the `confirmRestart` argument — and returns without touching the
ship. -/
def updateShip (confirmRestart : Bool) (g : Game) : Game :=
  if g.gameOver then (if confirmRestart then restartGame g else g)
  else updateShipCore g

/-! ### Keyboard handlers (`setupControls`, game.js lines 413-455)

Only the keys the handlers inspect are distinguished; every other key is
`other`. -/

inductive Key where
  | arrowLeft
  | arrowRight
  | space
  | other
  deriving DecidableEq, Repr

/-- The `keydown` listener of the key-state-tracking revision: ignored when
the game is over; ArrowLeft/ArrowRight record the key state and set the
steering to `-0.25` / `0.25`; Space starts a jump (`jumpVelocity = 0.3`)
when not already jumping. -/
def keydown (k : Key) (g : Game) : Game :=
  if g.gameOver then g
  else
    match k with
    | .arrowLeft => { g with leftKeyPressed := true, shipRotation := -0.25 }
    | .arrowRight => { g with rightKeyPressed := true, shipRotation := 0.25 }
    | .space =>
        if g.isJumping then g
        else { g with isJumping := true, jumpVelocity := 0.3 }
    | .other => g

/-- The `keyup` listener of the key-state-tracking revision: releasing an
arrow key clears its state and sets the steering to the direction of the
other arrow key if that one is still pressed, else to `0`. -/
def keyup (k : Key) (g : Game) : Game :=
  match k with
  | .arrowLeft =>
      if g.rightKeyPressed then { g with leftKeyPressed := false, shipRotation := 0.25 }
      else { g with leftKeyPressed := false, shipRotation := 0 }
  | .arrowRight =>
      if g.leftKeyPressed then { g with rightKeyPressed := false, shipRotation := -0.25 }
      else { g with rightKeyPressed := false, shipRotation := 0 }
  | _ => g

/-- A keyboard event: a keydown or a keyup of some key. -/
inductive KeyEvent where
  | down (k : Key)
  | up (k : Key)
  deriving DecidableEq, Repr

/-- Dispatch one keyboard event to the matching listener. -/
def applyEvent (g : Game) (e : KeyEvent) : Game :=
  match e with
  | .down k => keydown k g
  | .up k => keyup k g

/-- Apply a sequence of keyboard events in order. -/
def applyEvents (es : List KeyEvent) (g : Game) : Game :=
  es.foldl applyEvent g

end SkyRoads

namespace Part000

/-! ### The `src/unnamed/part_000` revision

This later revision differs where the claims touch it: `keydown` restarts
the game when Space is pressed at game over and ignores gameplay keys while
the ship is inside a tunnel; `generateTrackFromLevel` pushes, for each
tunnel character, a collidable floor block plus an invisible tunnel-top
block flagged `isTunnelTop` (two track entries), while the curved tunnel
visuals are not pushed onto the track list. -/

/-- A track entry of the part_000 revision: a box mesh plus the
`userData.isTunnelBlock` / `userData.isTunnelTop` flags. -/
structure Segment where
  px : ℚ
  py : ℚ
  pz : ℚ
  sx : ℚ
  sy : ℚ
  sz : ℚ
  blockType : Char
  isTunnelBlock : Bool
  isTunnelTop : Bool
  deriving DecidableEq, Repr

/-- Track entries pushed for the digit `c` in column `col` of (reversed)
row `idx` (part_000 lines 425-523): tunnels push the floor block at
`(x*3.5, 0.1, z)` scaled `(3.5, 0.1, 4.5)` and then the invisible top block
at `(x*3.5, 0.1 + 3.5, z)` scaled `(3.5, 0.1, 4.5)`; other digits push one
box as in the `game.js` revision. -/
def cellSegments (idx col : ℕ) (c : Char) : List Segment :=
  let x : ℚ := (col : ℚ) - 3
  let z : ℚ := -(idx : ℚ) * 4.5
  let h := SkyRoads.getBlockHeight c
  if c == '5' || c == '6' then
    [{ px := x * 3.5, py := h, pz := z, sx := 3.5, sy := h, sz := 4.5,
       blockType := c, isTunnelBlock := true, isTunnelTop := false },
     { px := x * 3.5, py := h + 1.75 * 2, pz := z, sx := 3.5, sy := 0.1, sz := 4.5,
       blockType := c, isTunnelBlock := false, isTunnelTop := true }]
  else
    [{ px := x * 3.5, py := h, pz := z, sx := 3.5, sy := h, sz := 4.5,
       blockType := c, isTunnelBlock := false, isTunnelTop := false }]

/-- Segments emitted by one row of the level in the part_000 revision. -/
def rowSegments (idx : ℕ) (row : List Char) : List Segment :=
  (SkyRoads.padTake7 row).enum.flatMap fun p =>
    if SkyRoads.isTrackChar p.2 then cellSegments idx p.1 p.2 else []

/-- `generateTrackFromLevel()` of the part_000 revision (lines 408-525):
same marker filtering, reversal and 7-column padding as the `game.js`
revision, but tunnel characters contribute two track entries. -/
def generateTrackFromLevel (lvl : List (List Char)) : List Segment :=
  ((lvl.filter fun r => !(r.contains '<')).reverse).enum.flatMap fun p =>
    rowSegments p.1 p.2

/-- The mutable game state of the part_000 revision (adds `isInTunnel`). -/
structure Game where
  shipX : ℚ
  shipY : ℚ
  shipZ : ℚ
  shipRotation : ℚ
  shipVelX : ℚ
  isJumping : Bool
  jumpVelocity : ℚ
  gameOver : Bool
  leftKeyPressed : Bool
  rightKeyPressed : Bool
  isInTunnel : Bool
  track : List Segment
  levelData : List (List Char)
  deriving Repr

/-- `this.baseSpeed.jump = 0.4` — the initial upward velocity of a jump. -/
def baseSpeedJump : ℚ := 0.4

/-- `restartGame()` of the part_000 revision (lines 1163-1216), restricted
to the modelled state: clear the game-over flag, rotation, velocity and
jump state, clear and regenerate the track from the level data, and reset
the ship to `(0, segmentHeight, 0)`.  (`isInTunnel` is not reset.) -/
def restartGame (g : Game) : Game :=
  { g with gameOver := false, shipRotation := 0, shipVelX := 0,
           isJumping := false, jumpVelocity := 0,
           track := generateTrackFromLevel g.levelData,
           shipX := 0, shipY := SkyRoads.segmentHeight, shipZ := 0 }

/-- The `keydown` listener of the part_000 revision (lines 557-586): when
the game is over, Space restarts the game and every other key does
nothing; otherwise, when the ship is inside a tunnel every key is ignored;
otherwise ArrowLeft/ArrowRight steer and Space starts a jump with
`jumpVelocity = baseSpeed.jump` when not already jumping. -/
def keydown (k : SkyRoads.Key) (g : Game) : Game :=
  if g.gameOver then
    (if k == SkyRoads.Key.space then restartGame g else g)
  else if g.isInTunnel then g
  else
    match k with
    | .arrowLeft => { g with leftKeyPressed := true, shipRotation := -0.25 }
    | .arrowRight => { g with rightKeyPressed := true, shipRotation := 0.25 }
    | .space =>
        if g.isJumping then g
        else { g with isJumping := true, jumpVelocity := baseSpeedJump }
    | .other => g

end Part000

namespace SkyRoads

/-! ### Concrete states used by the witnesses and the counterexamples -/

/-- The freshly loaded state: ship at the level start `(0, segmentHeight, 0)`,
no steering, grounded, game running. -/
def initialGame : Game :=
  { shipX := 0, shipY := segmentHeight, shipZ := 0, shipRotation := 0,
    shipVelX := 0, isJumping := false, jumpVelocity := 0, gameOver := false,
    leftKeyPressed := false, rightKeyPressed := false, track := [], levelData := [] }

/-- A normal `'1'` box segment at the track center of row 0 (the segment
`mkSegment 0 3 '1'` would produce): top surface at `0.4`. -/
def landingSegment : Segment :=
  { px := 0, py := 0.2, pz := 0, sx := 3.5, sy := 0.2, sz := 4.5, blockType := '1' }

/-- A descending airborne ship about to land on `landingSegment`: after this
frame's moves its center is `(0, 0)` and its integrated height `0.43` is
inside the landing band of the segment's top `0.4`. -/
def landingState : Game :=
  { initialGame with shipY := 0.45, shipZ := -0.8, isJumping := true,
                     jumpVelocity := -0.02, track := [landingSegment] }

/-- A grounded ship over an empty track (nothing underlies its footprint). -/
def fallingState : Game :=
  { initialGame with shipY := 0.2 }

/-- An airborne ship high over an empty track with vertical velocity `0`:
this frame integrates `y` unchanged and then applies gravity. -/
def gravityState : Game :=
  { initialGame with shipY := 5, isJumping := true, jumpVelocity := 0 }

/-- A ship far off the track laterally (`x = 11 > 7 * 1.5`), mid-jump. -/
def boundsState : Game :=
  { initialGame with shipX := 11, shipY := 3, isJumping := true, jumpVelocity := 0.1 }

/-- A ship that has fallen below the floor threshold (`y = -6 < -5`). -/
def floorState : Game :=
  { initialGame with shipY := -6, isJumping := true, jumpVelocity := -0.5 }

/-- A mid-flight state with the game-over flag set. -/
def frozenState : Game :=
  { initialGame with gameOver := true, shipX := 3, shipY := -2, shipZ := -40,
                     shipRotation := 0.25, shipVelX := 0.1,
                     isJumping := true, jumpVelocity := -0.3 }

/-- A game-over state with a one-row level, used to restart from. -/
def restartState : Game :=
  { initialGame with gameOver := true, shipX := 2, shipY := -6, shipZ := -9,
                     shipRotation := -0.25, isJumping := true, jumpVelocity := -0.4,
                     levelData := [['.', '1', '1', '1']] }

end SkyRoads

namespace Part000

/-- A running part_000 state: grounded, not in a tunnel, game running. -/
def playingState : Game :=
  { shipX := 0, shipY := SkyRoads.segmentHeight, shipZ := 0, shipRotation := 0,
    shipVelX := 0, isJumping := false, jumpVelocity := 0, gameOver := false,
    leftKeyPressed := false, rightKeyPressed := false, isInTunnel := false,
    track := [], levelData := [] }

/-- A grounded ship travelling inside a tunnel, game running. -/
def tunnelState : Game :=
  { playingState with isInTunnel := true, shipY := 0.2 }

/-- A part_000 state with the game-over flag set. -/
def spaceOverState : Game :=
  { playingState with gameOver := true, shipX := -11, levelData := [['5', '1']] }

end Part000

namespace SkyRoads

/-! ### Helper lemmas about the per-frame update -/

lemma verticalStep_shipX (cx cz : ℚ) (g : Game) : (verticalStep cx cz g).shipX = g.shipX := by
  unfold verticalStep
  split <;> split <;> rfl

lemma checkCollisions_shipX (cx cz : ℚ) (g : Game) :
    (checkCollisions cx cz g).shipX = g.shipX := by
  unfold checkCollisions
  split
  · rfl
  split
  · rfl
  split
  · rfl
  split
  · rfl
  · rfl

lemma updateShipCore_shipX (g : Game) : (updateShipCore g).shipX = centerX g := by
  unfold updateShipCore
  rw [checkCollisions_shipX, verticalStep_shipX]

lemma checkCollisions_fields (cx cz : ℚ) (g : Game)
    (h : g.isJumping = true ∨ g.track.any (fun s => overlap cx cz s) = true) :
    (checkCollisions cx cz g).isJumping = g.isJumping ∧
    (checkCollisions cx cz g).jumpVelocity = g.jumpVelocity ∧
    (checkCollisions cx cz g).shipY = g.shipY := by
  unfold checkCollisions
  split
  · exact ⟨rfl, rfl, rfl⟩
  split
  · exact ⟨rfl, rfl, rfl⟩
  split
  · exact ⟨rfl, rfl, rfl⟩
  split
  · exact ⟨rfl, rfl, rfl⟩
  · rename_i hnj hany
    rcases h with h | h
    · exact absurd h hnj
    · exact absurd h hany

lemma verticalStep_land (cx cz : ℚ) (g : Game) (s : Segment) (hj : g.isJumping = true)
    (hfind : g.track.find? (landingHit cx cz (g.shipY + g.jumpVelocity)) = some s) :
    verticalStep cx cz g = { g with shipY := segTop s, isJumping := false, jumpVelocity := 0 } := by
  simp only [verticalStep, hj, if_true]
  rw [hfind]

lemma verticalStep_noLand (cx cz : ℚ) (g : Game) (hj : g.isJumping = true)
    (hfind : g.track.find? (landingHit cx cz (g.shipY + g.jumpVelocity)) = none) :
    verticalStep cx cz g =
      { g with shipY := g.shipY + g.jumpVelocity,
               jumpVelocity :=
                 if g.jumpVelocity - 0.01 < 0 then g.jumpVelocity - 0.01 - 0.01
                 else g.jumpVelocity - 0.01 } := by
  simp only [verticalStep, hj, if_true]
  rw [hfind]

lemma verticalStep_fall (cx cz : ℚ) (g : Game) (hj : g.isJumping = false)
    (hfind : g.track.find? (groundHit cx cz g.shipY) = none) :
    verticalStep cx cz g = { g with isJumping := true, jumpVelocity := -0.1 } := by
  simp only [verticalStep, hj, Bool.false_eq_true, if_false]
  rw [hfind]

lemma overlap_of_landingHit {cx cz y : ℚ} {s : Segment}
    (h : landingHit cx cz y s = true) : overlap cx cz s = true := by
  simp only [landingHit, Bool.and_eq_true] at h
  exact h.1.1

/-! ### The claims -/

/-- Claim C1: in every per-frame ship update with the game running, the
ship airborne (`isJumping`) and descending (`jumpVelocity ≤ 0`), if some
track segment's footprint contains the frame's forward-offset ship center
(`|dx| < 1.75`, `|dz| < 2.25`) with the ship's integrated y inside the
landing band of its top surface, then the update clears the jump state
(`isJumping = false`, `jumpVelocity = 0`) and sets the ship's y exactly to
the top surface of a segment passing that test. -/
theorem landing_clears_jump_and_snaps (c : Bool) (g : Game)
    (hgo : g.gameOver = false) (hj : g.isJumping = true) (_hv : g.jumpVelocity ≤ 0)
    (hex : ∃ s ∈ g.track,
      landingHit (centerX g) (centerZ g) (g.shipY + g.jumpVelocity) s = true) :
    (updateShip c g).isJumping = false ∧ (updateShip c g).jumpVelocity = 0 ∧
    ∃ s ∈ g.track,
      landingHit (centerX g) (centerZ g) (g.shipY + g.jumpVelocity) s = true ∧
      (updateShip c g).shipY = segTop s := by
  obtain ⟨s₀, hmem₀, hhit₀⟩ := hex
  obtain ⟨s, hfind⟩ : ∃ s,
      g.track.find? (landingHit (centerX g) (centerZ g) (g.shipY + g.jumpVelocity)) = some s := by
    cases hf : g.track.find? (landingHit (centerX g) (centerZ g) (g.shipY + g.jumpVelocity)) with
    | none => exact absurd hhit₀ (List.find?_eq_none.mp hf s₀ hmem₀)
    | some s => exact ⟨s, rfl⟩
  have hhit : landingHit (centerX g) (centerZ g) (g.shipY + g.jumpVelocity) s = true :=
    List.find?_some hfind
  have hmem : s ∈ g.track := List.mem_of_find?_eq_some hfind
  have hupd : updateShip c g =
      checkCollisions (centerX g) (centerZ g)
        { g with shipVelX := g.shipRotation * gameSpeed, shipX := centerX g,
                 shipZ := g.shipZ - forwardSpeed,
                 shipY := segTop s, isJumping := false, jumpVelocity := 0 } := by
    unfold updateShip updateShipCore
    rw [if_neg (by simp [hgo])]
    exact congrArg (checkCollisions (centerX g) (centerZ g))
      (verticalStep_land (centerX g) (centerZ g)
        { g with shipVelX := g.shipRotation * gameSpeed, shipX := centerX g,
                 shipZ := g.shipZ - forwardSpeed } s hj hfind)
  have hfields := checkCollisions_fields (centerX g) (centerZ g)
      { g with shipVelX := g.shipRotation * gameSpeed, shipX := centerX g,
               shipZ := g.shipZ - forwardSpeed,
               shipY := segTop s, isJumping := false, jumpVelocity := 0 }
      (Or.inr (List.any_eq_true.mpr ⟨s, hmem, overlap_of_landingHit hhit⟩))
  rw [hupd]
  exact ⟨hfields.1, hfields.2.1, s, hmem, hhit, hfields.2.2⟩

/-- Witness for C1: the concrete descending state `landingState` lands on
`landingSegment` and its y snaps to that segment's top surface. -/
theorem landing_clears_jump_and_snaps_witness :
    (updateShip false landingState).isJumping = false ∧
    (updateShip false landingState).jumpVelocity = 0 ∧
    ∃ s ∈ landingState.track,
      landingHit (centerX landingState) (centerZ landingState)
        (landingState.shipY + landingState.jumpVelocity) s = true ∧
      (updateShip false landingState).shipY = segTop s :=
  landing_clears_jump_and_snaps false landingState rfl rfl
    (by norm_num [landingState, initialGame])
    ⟨landingSegment, by simp [landingState, initialGame],
      by norm_num [landingHit, overlap, segTop, centerX, centerZ, landingState,
        landingSegment, initialGame, gameSpeed, forwardSpeed]⟩

/-- Claim C2: in every per-frame update with the game running and the ship
grounded, if no track segment passes the support test at the frame's
forward-offset center (footprint containment plus top surface within the
0.3 tolerance of the ship's y), that same update sets `isJumping = true`
with `jumpVelocity = -0.1`: falling begins in the same frame. -/
theorem gap_starts_fall_same_frame (c : Bool) (g : Game)
    (hgo : g.gameOver = false) (hj : g.isJumping = false)
    (hno : ∀ s ∈ g.track, groundHit (centerX g) (centerZ g) g.shipY s = false) :
    (updateShip c g).isJumping = true ∧ (updateShip c g).jumpVelocity = -0.1 := by
  have hfind : g.track.find? (groundHit (centerX g) (centerZ g) g.shipY) = none :=
    List.find?_eq_none.mpr fun s hs => by simp [hno s hs]
  have hupd : updateShip c g =
      checkCollisions (centerX g) (centerZ g)
        { g with shipVelX := g.shipRotation * gameSpeed, shipX := centerX g,
                 shipZ := g.shipZ - forwardSpeed,
                 isJumping := true, jumpVelocity := -0.1 } := by
    unfold updateShip updateShipCore
    rw [if_neg (by simp [hgo])]
    exact congrArg (checkCollisions (centerX g) (centerZ g))
      (verticalStep_fall (centerX g) (centerZ g)
        { g with shipVelX := g.shipRotation * gameSpeed, shipX := centerX g,
                 shipZ := g.shipZ - forwardSpeed } hj hfind)
  have hfields := checkCollisions_fields (centerX g) (centerZ g)
      { g with shipVelX := g.shipRotation * gameSpeed, shipX := centerX g,
               shipZ := g.shipZ - forwardSpeed,
               isJumping := true, jumpVelocity := -0.1 }
      (Or.inl rfl)
  rw [hupd]
  exact ⟨hfields.1, hfields.2.1⟩

/-- Witness for C2: the grounded state `fallingState` over an empty track
starts falling in the same frame. -/
theorem gap_starts_fall_same_frame_witness :
    (updateShip false fallingState).isJumping = true ∧
    (updateShip false fallingState).jumpVelocity = -0.1 :=
  gap_starts_fall_same_frame false fallingState rfl rfl
    (by intro s hs; simp [fallingState, initialGame] at hs)

end SkyRoads

namespace SkyRoads

/-! ### Parsing lemmas for claim C3 -/

lemma isTrackChar_eq_isDigitChar (c : Char) : isTrackChar c = isDigitChar c := by
  by_cases h1 : c = ' '
  · subst h1; decide
  by_cases h2 : c = '.'
  · subst h2; decide
  have e1 : (c == ' ') = false := by simp [h1]
  have e2 : (c == '.') = false := by simp [h2]
  rw [isTrackChar, e1, e2]
  simp

lemma countP_padTake7 (r : List Char) :
    (padTake7 r).countP isTrackChar = (r.take 7).countP isDigitChar := by
  have hfun : isTrackChar = isDigitChar := funext isTrackChar_eq_isDigitChar
  rw [padTake7, List.take_append_eq_append_take, List.countP_append, List.take_replicate,
    List.countP_replicate, hfun]
  simp [isDigitChar]

lemma filterMap_ite_length (idx : ℕ) :
    ∀ ps : List (ℕ × Char),
      (ps.filterMap fun p =>
        if isTrackChar p.2 then some (mkSegment idx p.1 p.2) else none).length =
      ps.countP fun p => isTrackChar p.2 := by
  intro ps
  induction ps with
  | nil => rfl
  | cons a l ih =>
    by_cases h : isTrackChar a.2
    · simp [List.filterMap_cons, h, ih, List.countP_cons]
    · simp [List.filterMap_cons, h, ih, List.countP_cons]

lemma countP_enumFrom_snd (q : Char → Bool) :
    ∀ (l : List Char) (n : ℕ), ((l.enumFrom n).countP fun p => q p.2) = l.countP q := by
  intro l
  induction l with
  | nil => intro n; rfl
  | cons a l ih => intro n; simp [List.enumFrom, List.countP_cons, ih]

lemma rowSegments_length (idx : ℕ) (r : List Char) :
    (rowSegments idx r).length = (r.take 7).countP isDigitChar := by
  rw [rowSegments, filterMap_ite_length]
  rw [show (padTake7 r).enum = (padTake7 r).enumFrom 0 from rfl]
  rw [countP_enumFrom_snd, countP_padTake7]

lemma length_flatMap_enumFrom {α β : Type} (f : ℕ × α → List β) (m : α → ℕ)
    (hm : ∀ n a, (f (n, a)).length = m a) :
    ∀ (l : List α) (n : ℕ), ((l.enumFrom n).flatMap f).length = (l.map m).sum := by
  intro l
  induction l with
  | nil => intro n; rfl
  | cons a l ih =>
    intro n
    simp [List.enumFrom, List.flatMap_cons, hm, ih]

/-- Claim C3: for every level text, track generation emits exactly one
track entry per character in `'0'`-`'9'` in the first 7 columns of each
non-marker row (a row is a marker row when it contains `'<'`), and zero
entries for every other character: the length of the generated track list
equals the total count of digit characters in the first 7 columns of the
non-marker rows. -/
theorem one_segment_per_digit (lvl : List (List Char)) :
    (generateTrackFromLevel lvl).length =
      ((lvl.filter fun r => !(r.contains '<')).map
        fun r => (r.take 7).countP isDigitChar).sum := by
  rw [generateTrackFromLevel]
  rw [show ∀ l : List (List Char), l.enum = l.enumFrom 0 from fun _ => rfl]
  rw [length_flatMap_enumFrom (fun p => rowSegments p.1 p.2)
    (fun r => (r.take 7).countP isDigitChar) (fun n a => rowSegments_length n a)]
  rw [List.map_reverse, List.sum_reverse]

/-- Counterexample for C4: in the concrete jumping state `gravityState`
(empty track, vertical velocity `0`), the frame leaves the vertical
velocity at `-0.02`, a decrement of two gravity terms, not the single
constant `0.01` decrement the claim asserts. -/
theorem gravity_single_decrement_counterexample :
    gravityState.gameOver = false ∧ gravityState.isJumping = true ∧
    gravityState.track = [] ∧ gravityState.jumpVelocity = 0 ∧
    (updateShip false gravityState).jumpVelocity = gravityState.jumpVelocity - 0.02 ∧
    (updateShip false gravityState).jumpVelocity ≠ gravityState.jumpVelocity - 0.01 := by
  refine ⟨rfl, rfl, rfl, rfl, ?_, ?_⟩ <;>
    norm_num [updateShip, updateShipCore, verticalStep, checkCollisions, centerX, centerZ,
      gravityState, initialGame, gameSpeed, forwardSpeed, trackWidth, segmentHeight, List.find?]

/-- Claim C4 as amended: on every frame with the game running, the ship
jumping and no segment passing the landing test, the update adds the
current vertical velocity to y and then decrements the velocity by the
gravity constant `0.01`; if the decremented velocity is negative it is
decremented by a further `0.01` (the `// Continue falling` branch), for a
total of `0.02` on descending frames.  (When a segment is hit the velocity
is instead set to `0`; see C1.) -/
theorem gravity_double_decrement_when_falling (c : Bool) (g : Game)
    (hgo : g.gameOver = false) (hj : g.isJumping = true)
    (hno : ∀ s ∈ g.track,
      landingHit (centerX g) (centerZ g) (g.shipY + g.jumpVelocity) s = false) :
    (updateShip c g).shipY = g.shipY + g.jumpVelocity ∧
    (updateShip c g).jumpVelocity =
      (if g.jumpVelocity - 0.01 < 0 then g.jumpVelocity - 0.01 - 0.01
       else g.jumpVelocity - 0.01) := by
  have hfind : g.track.find?
      (landingHit (centerX g) (centerZ g) (g.shipY + g.jumpVelocity)) = none :=
    List.find?_eq_none.mpr fun s hs => by simp [hno s hs]
  have hupd : updateShip c g =
      checkCollisions (centerX g) (centerZ g)
        { g with shipVelX := g.shipRotation * gameSpeed, shipX := centerX g,
                 shipZ := g.shipZ - forwardSpeed,
                 shipY := g.shipY + g.jumpVelocity,
                 jumpVelocity :=
                   if g.jumpVelocity - 0.01 < 0 then g.jumpVelocity - 0.01 - 0.01
                   else g.jumpVelocity - 0.01 } := by
    unfold updateShip updateShipCore
    rw [if_neg (by simp [hgo])]
    exact congrArg (checkCollisions (centerX g) (centerZ g))
      (verticalStep_noLand (centerX g) (centerZ g)
        { g with shipVelX := g.shipRotation * gameSpeed, shipX := centerX g,
                 shipZ := g.shipZ - forwardSpeed } hj hfind)
  have hfields := checkCollisions_fields (centerX g) (centerZ g)
      { g with shipVelX := g.shipRotation * gameSpeed, shipX := centerX g,
               shipZ := g.shipZ - forwardSpeed,
               shipY := g.shipY + g.jumpVelocity,
               jumpVelocity :=
                 if g.jumpVelocity - 0.01 < 0 then g.jumpVelocity - 0.01 - 0.01
                 else g.jumpVelocity - 0.01 }
      (Or.inl hj)
  rw [hupd]
  exact ⟨hfields.2.2, hfields.2.1⟩

/-- Witness for the amended C4: the concrete state `gravityState` keeps its
y (velocity `0`) and ends the frame with velocity decremented twice. -/
theorem gravity_double_decrement_when_falling_witness :
    (updateShip false gravityState).shipY = gravityState.shipY + gravityState.jumpVelocity ∧
    (updateShip false gravityState).jumpVelocity =
      (if gravityState.jumpVelocity - 0.01 < 0 then gravityState.jumpVelocity - 0.01 - 0.01
       else gravityState.jumpVelocity - 0.01) :=
  gravity_double_decrement_when_falling false gravityState rfl rfl
    (by intro s hs; simp [gravityState, initialGame] at hs)

end SkyRoads

namespace SkyRoads

/-- Claim C5: whenever the absolute value of the ship's x position exceeds
1.5 times the track width, the frame's collision check sets the game-over
flag, for every ship center and every vertical state (grounded, jumping or
falling). -/
theorem lateral_bound_sets_game_over (cx cz : ℚ) (g : Game)
    (h : |g.shipX| > trackWidth * 1.5) :
    (checkCollisions cx cz g).gameOver = true := by
  rw [checkCollisions, if_pos h]

/-- Witness for C5: the collision check on the concrete airborne state
`boundsState` (`x = 11 > 10.5`) sets game over. -/
theorem lateral_bound_sets_game_over_witness :
    (checkCollisions 0 0 boundsState).gameOver = true :=
  lateral_bound_sets_game_over 0 0 boundsState
    (by norm_num [boundsState, initialGame, trackWidth])

/-- Claim C6: invoking restart from the game-over state resets the ship to
the level's start coordinates (`x = 0`, `y = segmentHeight`, `z = 0`),
clears the game-over flag, velocity, rotation and jump state, and rebuilds
the track list as exactly the generator's output on the same level data —
the same segments (positions, sizes, types) in the same order as the
original load produced. -/
theorem restart_resets_state_and_track (g : Game) (_h : g.gameOver = true) :
    (restartGame g).shipX = 0 ∧ (restartGame g).shipY = segmentHeight ∧
    (restartGame g).shipZ = 0 ∧ (restartGame g).gameOver = false ∧
    (restartGame g).shipVelX = 0 ∧ (restartGame g).shipRotation = 0 ∧
    (restartGame g).isJumping = false ∧ (restartGame g).jumpVelocity = 0 ∧
    (restartGame g).track = generateTrackFromLevel g.levelData :=
  ⟨rfl, rfl, rfl, rfl, rfl, rfl, rfl, rfl, rfl⟩

/-- Witness for C6: restarting from the concrete game-over state
`restartState` resets the ship and regenerates the level's track. -/
theorem restart_resets_state_and_track_witness :
    (restartGame restartState).shipX = 0 ∧ (restartGame restartState).shipY = segmentHeight ∧
    (restartGame restartState).shipZ = 0 ∧ (restartGame restartState).gameOver = false ∧
    (restartGame restartState).shipVelX = 0 ∧ (restartGame restartState).shipRotation = 0 ∧
    (restartGame restartState).isJumping = false ∧ (restartGame restartState).jumpVelocity = 0 ∧
    (restartGame restartState).track = generateTrackFromLevel restartState.levelData :=
  restart_resets_state_and_track restartState rfl

/-- Claim C7: whenever the ship's y position is below the floor threshold
`-5`, the frame's collision check sets the game-over flag. -/
theorem floor_threshold_sets_game_over (cx cz : ℚ) (g : Game) (h : g.shipY < -5) :
    (checkCollisions cx cz g).gameOver = true := by
  rw [checkCollisions]
  split
  · rfl
  · rfl

/-- Witness for C7: the collision check on the concrete fallen state
`floorState` (`y = -6 < -5`) sets game over. -/
theorem floor_threshold_sets_game_over_witness :
    (checkCollisions 0 0 floorState).gameOver = true :=
  floor_threshold_sets_game_over 0 0 floorState (by norm_num [floorState, initialGame])

/-- Claim C9: while the game-over flag is set, the per-frame ship update
leaves the whole state unchanged (no movement, physics or collision
processing); the state changes only when the restart offered by the update
is taken, in which case the update performs exactly `restartGame`. -/
theorem game_over_freezes_update (g : Game) (h : g.gameOver = true) :
    updateShip false g = g ∧ updateShip true g = restartGame g := by
  constructor <;> simp [updateShip, h]

/-- Witness for C9: the update on the concrete game-over state
`frozenState` is the identity, and with the restart confirmed it is
exactly `restartGame`. -/
theorem game_over_freezes_update_witness :
    updateShip false frozenState = frozenState ∧
    updateShip true frozenState = restartGame frozenState :=
  game_over_freezes_update frozenState rfl

/-- Claim C10: in the key-state-tracking revision, after any sequence of
keyboard events applied to a state whose steering value is in
`{-0.25, 0, 0.25}`, the steering value `shipRotation` is still in
`{-0.25, 0, 0.25}`; consequently the per-frame lateral displacement of the
ship update never exceeds `0.25 * gameSpeed = 0.1`. -/
theorem steering_rotation_invariant (es : List KeyEvent) (g : Game)
    (h : g.shipRotation = -0.25 ∨ g.shipRotation = 0 ∨ g.shipRotation = 0.25) :
    ((applyEvents es g).shipRotation = -0.25 ∨ (applyEvents es g).shipRotation = 0 ∨
      (applyEvents es g).shipRotation = 0.25) ∧
    |(updateShip false (applyEvents es g)).shipX - (applyEvents es g).shipX| ≤
      0.25 * gameSpeed := by
  have hstep : ∀ (g : Game) (e : KeyEvent),
      (g.shipRotation = -0.25 ∨ g.shipRotation = 0 ∨ g.shipRotation = 0.25) →
      ((applyEvent g e).shipRotation = -0.25 ∨ (applyEvent g e).shipRotation = 0 ∨
        (applyEvent g e).shipRotation = 0.25) := by
    intro g e h
    cases e with
    | down k =>
      cases k <;> simp only [applyEvent, keydown] <;> split
      · exact h
      · exact Or.inl rfl
      · exact h
      · exact Or.inr (Or.inr rfl)
      · exact h
      · split
        · exact h
        · exact h
      · exact h
      · exact h
    | up k =>
      cases k <;> simp only [applyEvent, keyup]
      · split
        · exact Or.inr (Or.inr rfl)
        · exact Or.inr (Or.inl rfl)
      · split
        · exact Or.inl rfl
        · exact Or.inr (Or.inl rfl)
      · exact h
      · exact h
  have hrot : ∀ g : Game,
      (g.shipRotation = -0.25 ∨ g.shipRotation = 0 ∨ g.shipRotation = 0.25) →
      ((applyEvents es g).shipRotation = -0.25 ∨ (applyEvents es g).shipRotation = 0 ∨
        (applyEvents es g).shipRotation = 0.25) := by
    induction es with
    | nil => exact fun g h => h
    | cons e es ih => exact fun g h => ih (applyEvent g e) (hstep g e h)
  refine ⟨hrot g h, ?_⟩
  have hd := hrot g h
  unfold updateShip
  split
  · simp only [if_neg Bool.false_ne_true]
    norm_num [gameSpeed]
  · rw [updateShipCore_shipX]
    rcases hd with hd | hd | hd <;> rw [centerX, hd] <;> norm_num [gameSpeed, abs_le]

/-- Witness for C10: pressing ArrowLeft once from the initial state leaves
the steering at a value in the set and the frame's lateral displacement
within `0.1`. -/
theorem steering_rotation_invariant_witness :
    ((applyEvents [KeyEvent.down Key.arrowLeft] initialGame).shipRotation = -0.25 ∨
      (applyEvents [KeyEvent.down Key.arrowLeft] initialGame).shipRotation = 0 ∨
      (applyEvents [KeyEvent.down Key.arrowLeft] initialGame).shipRotation = 0.25) ∧
    |(updateShip false (applyEvents [KeyEvent.down Key.arrowLeft] initialGame)).shipX -
      (applyEvents [KeyEvent.down Key.arrowLeft] initialGame).shipX| ≤ 0.25 * gameSpeed :=
  steering_rotation_invariant [KeyEvent.down Key.arrowLeft] initialGame (Or.inr (Or.inl rfl))

end SkyRoads

namespace Part000

/-- Counterexample for C8: in the concrete part_000 state `tunnelState`
the game is not over and the ship is grounded, yet pressing Space does not
start a jump — the handler ignores the key because the ship is inside a
tunnel. -/
theorem space_in_tunnel_counterexample :
    tunnelState.gameOver = false ∧ tunnelState.isJumping = false ∧
    keydown SkyRoads.Key.space tunnelState = tunnelState ∧
    (keydown SkyRoads.Key.space tunnelState).isJumping = false :=
  ⟨rfl, rfl, rfl, rfl⟩

/-- Claim C8 as amended: for every keydown of Space in the part_000
revision, if the game is not over, the ship is not inside a tunnel and the
ship is grounded (`isJumping = false`), the handler starts a jump
(`isJumping = true` with the positive velocity `baseSpeed.jump = 0.4`);
and if the game-over flag is set, the handler performs exactly
`restartGame`. -/
theorem space_key_semantics (g : Game) :
    (g.gameOver = false → g.isInTunnel = false → g.isJumping = false →
      (keydown SkyRoads.Key.space g).isJumping = true ∧
      (keydown SkyRoads.Key.space g).jumpVelocity = baseSpeedJump ∧
      (0 : ℚ) < baseSpeedJump) ∧
    (g.gameOver = true → keydown SkyRoads.Key.space g = restartGame g) := by
  constructor
  · intro h1 h2 h3
    refine ⟨?_, ?_, by norm_num [baseSpeedJump]⟩ <;> simp [keydown, h1, h2, h3]
  · intro h
    simp [keydown, h]

/-- Witness for the amended C8: Space starts a jump from the concrete
running state `playingState` and performs a restart from the concrete
game-over state `spaceOverState`. -/
theorem space_key_semantics_witness :
    ((keydown SkyRoads.Key.space playingState).isJumping = true ∧
      (keydown SkyRoads.Key.space playingState).jumpVelocity = baseSpeedJump ∧
      (0 : ℚ) < baseSpeedJump) ∧
    keydown SkyRoads.Key.space spaceOverState = restartGame spaceOverState :=
  ⟨(space_key_semantics playingState).1 rfl rfl rfl,
   (space_key_semantics spaceOverState).2 rfl⟩

end Part000
